import Mathlib

/-! Verification development for the fantasy-league season simulator
  (`src/simulation/simulator.py`).

  The `Simulator` class and its `update` method are embedded shallowly:
  the mutable attributes of `Simulator` become the fields of `SimState`,
  the per-gameweek external data (round results and static-element
  snapshots, produced by the `datautil` providers outside the core) become
  an explicit `Env`, and `update` becomes a function
  `SimState → … → SimState × Option Err` whose error component records a
  raised exception, paired with the state as mutated up to the point of
  the raise.

  The helper functions imported from `simulation.utils`
  (`make_automatic_substitutions`, `calculate_points`, `count_transfers`,
  `calculate_transfer_cost`, `calculate_budget`, `update_purchase_prices`,
  `get_selling_prices`, `calculate_team_value`, `update_free_transfers`)
  are not part of the provided sources; each is modelled from the spec and
  marked as such in its doc comment.
-/

namespace FplSim

/-- Players are opaque identifiers (keys into external player data). -/
abbrev Player := Nat

/-- Modelled from the spec: positions (element types) for goalkeeper,
defender, midfielder, forward and manager-role, the constants imported
from `game.rules` (not under the provided sources). -/
def GKP : Nat := 1

/-- Defender element type (see `GKP`). -/
def DEF : Nat := 2

/-- Midfielder element type (see `GKP`). -/
def MID : Nat := 3

/-- Forward element type (see `GKP`). -/
def FWD : Nat := 4

/-- Manager element type (see `GKP`). -/
def MNG : Nat := 5

/-- The manager's nominal role assignment, the `roles` dict passed to
`Simulator.update`: a starting XI (kept as a list, since the automatic
substitution order depends on the nominal order), one reserve goalkeeper,
three ordered outfield reserves, a captain and a vice-captain. -/
structure Roles where
  starting_xi : List Player
  reserve_gkp : Player
  reserve_out_1 : Player
  reserve_out_2 : Player
  reserve_out_3 : Player
  captain : Player
  vice_captain : Player
  deriving Repr, DecidableEq

/-- A Python dict from player id to an integer value, with its key set
kept explicitly (`val` is unconstrained off `keys`). -/
structure PriceMap where
  keys : Finset Player
  val : Player → Int

/-- Results of one gameweek: per-player minutes played and total points.
Players absent from the round's results table map to 0 (the simulator
wraps `total_points` in a `defaultdict(lambda: 0, …)`, and a player with
no result row played no minutes). -/
structure RoundData where
  minutes : Player → Int
  total_points : Player → Int

/-- Static-element snapshot for one gameweek: per-player current market
price (`now_cost`) and position (`element_type`). -/
structure ElemData where
  now_cost : Player → Int
  element_type : Player → Nat

/-- The external data providers, keyed by gameweek. Modelled from the
spec: round results and market snapshots are fetched per round and their
absence is fatal to that round's `advance` (`DataUnavailable`); the
actual loaders live in `datautil`, outside the provided sources. -/
structure Env where
  results : Nat → Option RoundData
  elements : Nat → Option ElemData

/-- The mutable per-season state of a `Simulator` instance. -/
structure SimState where
  season : String
  next_gameweek : Nat
  season_points : Int
  squad : Finset Player
  budget : Int
  purchase_prices : PriceMap
  free_transfers : Int

/-- Error kinds an `advance` call can surface. Modelled from the spec:
`DataUnavailable` is raised when round results or the market snapshot are
missing for the requested round. (The spec also names
`InvalidRoleAssignment`; no validation of `roles` appears in
`Simulator.update`, which is settled by the theorems below.) -/
inductive Err where
  | dataUnavailable : Err
  deriving Repr, DecidableEq

/-- Replace player `a` by player `b` in a lineup list. -/
def replace1 (xi : List Player) (a b : Player) : List Player :=
  xi.map (fun p => if p = a then b else p)

/-- Modelled from the spec: the formation-validity constraint — the
starting XI must contain at least 1 goalkeeper, at least 3 defenders and
at least 1 forward (manager-role players do not count toward these). -/
def formation_valid (xi : List Player) (element_types : Player → Nat) : Bool :=
  1 ≤ (xi.filter (fun p => element_types p = GKP)).length &&
  3 ≤ (xi.filter (fun p => element_types p = DEF)).length &&
  1 ≤ (xi.filter (fun p => element_types p = FWD)).length

/-- Try the candidate reserves in listed order against one non-playing
starter: pick the first whose swap keeps the formation valid, returning
the chosen reserve (if any) and the remaining candidates. -/
def pick_reserve (xi : List Player) (starter : Player) (cands : List Player)
    (element_types : Player → Nat) : Option Player × List Player :=
  match cands with
  | [] => (none, [])
  | r :: rest =>
    if formation_valid (replace1 xi starter r) element_types then
      (some r, rest)
    else
      let (o, rem) := pick_reserve xi starter rest element_types
      (o, r :: rem)

/-- Substitute the non-playing outfield starters, in the order they
appear in the nominal list, from the ordered candidate reserves; a
starter for whom no valid candidate exists is left in place. -/
def sub_outfield (xi : List Player) (nonplayers : List Player)
    (cands : List Player) (element_types : Player → Nat) : List Player :=
  match nonplayers with
  | [] => xi
  | st :: rest =>
    match pick_reserve xi st cands element_types with
    | (some r, rem) => sub_outfield (replace1 xi st r) rest rem element_types
    | (none, _) => sub_outfield xi rest cands element_types

/-- The effective role assignment used for scoring: the starting XI after
automatic substitutions, and the effective captain (the resolved
captaincy fallback; `none` when neither captain nor vice-captain
played). The reserve slots of the substituted roles feed only the
printed report, never the committed state, and are omitted. -/
structure SRoles where
  starting_xi : List Player
  captain : Option Player

/-- Modelled from the spec: the Substitution Resolver. Starters with zero
minutes are identified in nominal order; the reserve goalkeeper (if it
played) may only replace a non-playing starting goalkeeper; the three
outfield reserves are tried in listed order, skipping any reserve that
itself has zero minutes, against each non-playing outfield starter in
nominal order, skipping substitutions that would break the formation
floor; if the captain is a non-player the vice-captain's multiplier is
used instead, and if the vice-captain is also a non-player no multiplier
is applied. It always terminates without error. -/
def make_automatic_substitutions (roles : Roles) (minutes : Player → Int)
    (element_types : Player → Nat) : SRoles :=
  let nonplayers := roles.starting_xi.filter (fun p => minutes p = 0)
  let gkp_nonplayers := nonplayers.filter (fun p => element_types p = GKP)
  let xi1 :=
    match gkp_nonplayers with
    | [] => roles.starting_xi
    | st :: _ =>
      if minutes roles.reserve_gkp ≠ 0 then
        replace1 roles.starting_xi st roles.reserve_gkp
      else
        roles.starting_xi
  let out_nonplayers := nonplayers.filter (fun p => element_types p ≠ GKP)
  let cands :=
    [roles.reserve_out_1, roles.reserve_out_2, roles.reserve_out_3].filter
      (fun p => minutes p ≠ 0)
  let xi2 := sub_outfield xi1 out_nonplayers cands element_types
  let eff_captain :=
    if minutes roles.captain ≠ 0 then some roles.captain
    else if minutes roles.vice_captain ≠ 0 then some roles.vice_captain
    else none
  ⟨xi2, eff_captain⟩

/-- Modelled from the spec: the Scoring Engine — the sum of the effective
starters' points plus the effective captain's points once more (captain
multiplier 2); reserves never contribute. -/
def calculate_points (sr : SRoles) (total_points : Player → Int) : Int :=
  (sr.starting_xi.map total_points).sum +
    (match sr.captain with
     | some c => total_points c
     | none => 0)

/-- The new squad derived from the roles input in `Simulator.update`:
`{*roles["starting_xi"], roles["reserve_gkp"], …}`. -/
def newSquad (roles : Roles) : Finset Player :=
  roles.starting_xi.toFinset ∪
    {roles.reserve_gkp, roles.reserve_out_1, roles.reserve_out_2,
      roles.reserve_out_3}

/-- Modelled from the spec: the Transfer Accountant's transfer count,
`|old_squad \ new_squad|`. -/
def count_transfers (old_squad new_squad : Finset Player) : Nat :=
  (old_squad \ new_squad).card

/-- Whether a gameweek is exempt from transfer accounting: a wildcard
round, or the season's first round (gameweek 1). -/
def transfer_exempt (gameweek : Nat) (wildcard_gameweeks : List Nat) : Bool :=
  gameweek ∈ wildcard_gameweeks || gameweek = 1

/-- Modelled from the spec: the transfer penalty,
`4 × max(0, transfers_made − free_transfers)` when the round is neither a
wildcard round nor the season's first round, else 0. -/
def calculate_transfer_cost (free_transfers : Int) (transfers_made : Nat)
    (gameweek : Nat) (wildcard_gameweeks : List Nat) : Int :=
  if transfer_exempt gameweek wildcard_gameweeks then 0
  else 4 * max 0 ((transfers_made : Int) - free_transfers)

/-- Modelled from the spec: free-transfer banking,
`clamp(free_transfers − transfers_made + 1, 0, 5)`, left unchanged on a
wildcard round or the season's first round. -/
def update_free_transfers (free_transfers : Int) (transfers_made : Nat)
    (gameweek : Nat) (wildcard_gameweeks : List Nat) : Int :=
  if transfer_exempt gameweek wildcard_gameweeks then free_transfers
  else min 5 (max 0 (free_transfers - (transfers_made : Int) + 1))

/-- Modelled from the spec: the per-player selling-price rule — market
price when it is at least the purchase price, otherwise the purchase
price minus half the drop rounded down to the price tick (prices are in
integer tenths, so the tick is 1 and the rounding is integer floor
division by 2). -/
def selling_price (purchase now : Int) : Int :=
  if purchase ≤ now then now
  else purchase - (purchase - now) / 2

/-- Modelled from the spec: the selling-price mapping for a whole squad,
applying `selling_price` per squad member to its purchase price and
current market price. -/
def get_selling_prices (squad : Finset Player) (purchase_prices : PriceMap)
    (now_costs : Player → Int) : PriceMap :=
  ⟨squad, fun p => selling_price (purchase_prices.val p) (now_costs p)⟩

/-- Modelled from the spec: the budget recompute on a transfer —
`old_budget + Σ selling price of departing − Σ market price of arriving`. -/
def calculate_budget (old_squad new_squad : Finset Player) (budget : Int)
    (selling_prices : PriceMap) (now_costs : Player → Int) : Int :=
  budget + (old_squad \ new_squad).sum selling_prices.val
    - (new_squad \ old_squad).sum now_costs

/-- Modelled from the spec: purchase prices for the new squad — a
continuing player (already in the purchase-price dict) keeps its purchase
price, a newly acquired player's purchase price is the current market
price. -/
def update_purchase_prices (new_squad : Finset Player)
    (purchase_prices : PriceMap) (now_costs : Player → Int) : PriceMap :=
  ⟨new_squad, fun p =>
    if p ∈ purchase_prices.keys then purchase_prices.val p else now_costs p⟩

/-- Modelled from the spec: team value — squad selling prices plus
budget. (Computed by `update` for the report; it is not part of the
committed state.) -/
def calculate_team_value (squad : Finset Player) (selling_prices : PriceMap)
    (budget : Int) : Int :=
  squad.sum selling_prices.val + budget

/-- The post-round gameweek pointer: `next_gameweek += 1`, then the
cancelled-gameweek skip — in season `"2022-23"`, a pointer that lands on
7 moves on to 8. -/
def skipStep (season : String) (next_gameweek : Nat) : Nat :=
  let ng := next_gameweek + 1
  if season = "2022-23" ∧ ng = 7 then 8 else ng

/-- Shallow embedding of `Simulator.update`. Mirrors the source's
sequencing: fetch the gameweek's results and static elements (modelled
from the spec as fallible, `DataUnavailable` on absence), resolve
automatic substitutions and score, derive the new squad and all new
financial values, add `gameweek_points − transfer_cost` to the points
tally, optionally print the report (a pure sink that reads no state it
can change), then commit squad, budget, purchase prices and free
transfers and advance the gameweek pointer with the cancelled-round
skip. Returns the resulting state together with `some` error when the
call raises (in which case the returned state is the state as mutated up
to the raise). -/
def update (env : Env) (s : SimState) (roles : Roles)
    (wildcard_gameweeks : List Nat) (log : Bool) : SimState × Option Err :=
  match env.results s.next_gameweek with
  | none => (s, some Err.dataUnavailable)
  | some res =>
    match env.elements s.next_gameweek with
    | none => (s, some Err.dataUnavailable)
    | some elems =>
      let minutes := res.minutes
      let total_points := res.total_points
      let element_types := elems.element_type
      let now_costs := elems.now_cost
      let substituted_roles :=
        make_automatic_substitutions roles minutes element_types
      let gameweek_points := calculate_points substituted_roles total_points
      let new_squad := newSquad roles
      let transfers_made := count_transfers s.squad new_squad
      let transfer_cost := calculate_transfer_cost s.free_transfers
        transfers_made s.next_gameweek wildcard_gameweeks
      let selling_prices :=
        get_selling_prices s.squad s.purchase_prices now_costs
      let new_budget := calculate_budget s.squad new_squad s.budget
        selling_prices now_costs
      let new_purchase_prices :=
        update_purchase_prices new_squad s.purchase_prices now_costs
      let new_selling_prices :=
        get_selling_prices new_squad new_purchase_prices now_costs
      let _new_team_value :=
        calculate_team_value new_squad new_selling_prices new_budget
      let new_free_transfers := update_free_transfers s.free_transfers
        transfers_made s.next_gameweek wildcard_gameweeks
      let s1 := { s with
        season_points := s.season_points + gameweek_points - transfer_cost }
      let s2 := { s1 with
        squad := new_squad
        budget := new_budget
        purchase_prices := new_purchase_prices
        free_transfers := new_free_transfers }
      let s3 := { s2 with next_gameweek := skipStep s.season s.next_gameweek }
      (s3, none)

/-- The cancelled-gameweek pointer sequence: `next_gameweek` after `k`
`update` calls in season `"2022-23"`, starting from the first gameweek
(`Simulator.__init__` sets `next_gameweek = first_gameweek = 1`). -/
def seqNg : Nat → Nat
  | 0 => 1
  | k + 1 => skipStep "2022-23" (seqNg k)

section Fixtures

/-- Element types for the concrete test data: players 1 and 12 are
goalkeepers, 2–5 and 13 defenders, 6–8 and 14 midfielders, the rest
forwards. -/
def et0 : Player → Nat := fun p =>
  if p = 1 ∨ p = 12 then GKP
  else if p ≤ 5 ∨ p = 13 then DEF
  else if p ≤ 8 ∨ p = 14 then MID
  else FWD

/-- A round in which every player played 90 minutes and scored 0. -/
def rd0 : RoundData := ⟨fun _ => 90, fun _ => 0⟩

/-- Market snapshot: players up to 15 cost 50, the rest 1000. -/
def ed0 : ElemData := ⟨fun p => if 16 ≤ p then 1000 else 50, et0⟩

/-- An environment with data for every round. -/
def envT : Env := ⟨fun _ => some rd0, fun _ => some ed0⟩

/-- An environment with no data at all. -/
def envU : Env := ⟨fun _ => none, fun _ => none⟩

/-- An environment with data exactly for rounds 1..38. -/
def envP : Env :=
  ⟨fun r => if r ≤ 38 then some rd0 else none,
   fun r => if r ≤ 38 then some ed0 else none⟩

/-- The squad `{1, …, 15}`. -/
def squad0 : Finset Player :=
  {1, 2, 3, 4, 5, 6, 7, 8, 9, 10, 11, 12, 13, 14, 15}

/-- Purchase prices: 50 for everyone in the squad. -/
def pp0 : PriceMap := ⟨squad0, fun _ => 50⟩

/-- A valid role assignment over `squad0`. -/
def roles0 : Roles := ⟨[1, 2, 3, 4, 5, 6, 7, 8, 9, 10, 11], 12, 13, 14, 15, 1, 2⟩

/-- An invalid role assignment: only 10 starters. -/
def badRoles : Roles := ⟨[1, 2, 3, 4, 5, 6, 7, 8, 9, 10], 12, 13, 14, 15, 1, 2⟩

/-- A role assignment transferring out players 9, 10, 11 for 16, 17, 18. -/
def roles3 : Roles := ⟨[1, 2, 3, 4, 5, 6, 7, 8, 16, 17, 18], 12, 13, 14, 15, 1, 2⟩

/-- A mid-season state at gameweek 2 with one free transfer. -/
def s0 : SimState := ⟨"2021-22", 2, 0, squad0, 0, pp0, 1⟩

/-- A 2022-23 state at gameweek 6 (the gameweek before the cancelled one). -/
def s22 : SimState := ⟨"2022-23", 6, 0, squad0, 0, pp0, 1⟩

/-- A completed-season state: the gameweek pointer is past 38. -/
def s39 : SimState := ⟨"2021-22", 39, 0, squad0, 0, pp0, 1⟩

end Fixtures

/-- The Boolean exemption test agrees with the proposition "the round is
a wildcard round or the season's first round". -/
lemma transfer_exempt_iff (gw : Nat) (wc : List Nat) :
    transfer_exempt gw wc = true ↔ (gw ∈ wc ∨ gw = 1) := by
  simp [transfer_exempt]

/-- When the round's data is available, `update` raises nothing and
returns exactly the committed state: the gameweek points minus the
transfer cost added to the tally, the squad derived from the roles, the
recomputed budget, purchase prices and free transfers, and the advanced
gameweek pointer. -/
lemma update_eq_of_data (env : Env) (s : SimState) (roles : Roles)
    (wc : List Nat) (log : Bool) (res : RoundData) (elems : ElemData)
    (hr : env.results s.next_gameweek = some res)
    (he : env.elements s.next_gameweek = some elems) :
    update env s roles wc log =
      (⟨s.season,
        skipStep s.season s.next_gameweek,
        s.season_points +
          calculate_points
            (make_automatic_substitutions roles res.minutes elems.element_type)
            res.total_points -
          calculate_transfer_cost s.free_transfers
            (count_transfers s.squad (newSquad roles)) s.next_gameweek wc,
        newSquad roles,
        calculate_budget s.squad (newSquad roles) s.budget
          (get_selling_prices s.squad s.purchase_prices elems.now_cost)
          elems.now_cost,
        update_purchase_prices (newSquad roles) s.purchase_prices
          elems.now_cost,
        update_free_transfers s.free_transfers
          (count_transfers s.squad (newSquad roles)) s.next_gameweek wc⟩,
       none) := by
  unfold update
  rw [hr, he]

/-- In season 2022-23 the post-round pointer is the increment, with 7
mapped to 8. -/
lemma skipStep_2223 (ng : Nat) :
    skipStep "2022-23" ng = if ng + 1 = 7 then 8 else ng + 1 := by
  simp [skipStep]

/-- Outside season 2022-23 the post-round pointer is a plain increment. -/
lemma skipStep_other (season : String) (ng : Nat) (h : season ≠ "2022-23") :
    skipStep season ng = ng + 1 := by
  simp [skipStep, h]

/-- Closed form of the 2022-23 gameweek-pointer sequence: gameweek 7 is
skipped, so the pointer is `k + 1` for the first six rounds and `k + 2`
afterwards. -/
lemma seqNg_formula (k : Nat) : seqNg k = if k < 6 then k + 1 else k + 2 := by
  induction k with
  | zero => rfl
  | succ n ih =>
    show skipStep "2022-23" (seqNg n) = _
    rw [ih, skipStep_2223]
    split_ifs <;> omega

/-- C1: if an `update` (advance) call raises an error for any reason,
the entire season state — squad, budget, purchase prices, free
transfers, season points and gameweek pointer — is exactly as it was
before the call: every raise happens before the first mutation, so there
is no partial commit. -/
theorem update_raises_state_unchanged (env : Env) (s : SimState)
    (roles : Roles) (wc : List Nat) (log : Bool) (e : Err)
    (h : (update env s roles wc log).2 = some e) :
    (update env s roles wc log).1 = s := by
  cases hres : env.results s.next_gameweek with
  | none => simp [update, hres]
  | some res =>
    cases hel : env.elements s.next_gameweek with
    | none => simp [update, hres, hel]
    | some elems =>
      exfalso
      simp [update, hres, hel] at h

/-- Witness for C1: with the round's results unavailable, `update`
raises `DataUnavailable` and the state is untouched. -/
theorem update_raises_state_unchanged_witness :
    (update envU s0 roles0 [] false).2 = some Err.dataUnavailable ∧
    (update envU s0 roles0 [] false).1 = s0 :=
  ⟨rfl, update_raises_state_unchanged envU s0 roles0 [] false
    Err.dataUnavailable rfl⟩

/-- C2 counterexample: a role assignment with only 10 starters — which
violates the squad/role invariants — is not rejected by `update`: the
call raises no error, and the season state changes (the committed squad
even has 14 members instead of 15). -/
theorem update_accepts_invalid_roles_cex :
    badRoles.starting_xi.length ≠ 11 ∧
    (update envT s0 badRoles [] false).2 = none ∧
    (update envT s0 badRoles [] false).1.squad ≠ s0.squad ∧
    (update envT s0 badRoles [] false).1.squad.card = 14 := by
  refine ⟨by decide, rfl, by decide, by decide⟩

/-- C2 amended: `update` performs no validation of the roles input at
all — whenever the round's data is available, any roles input, also one
violating the squad/role invariants, is accepted without error, the
substitution logic runs on it, and the state is committed with the squad
taken to be the starting XI together with the four reserve slots. -/
theorem update_no_role_validation (env : Env) (s : SimState) (roles : Roles)
    (wc : List Nat) (log : Bool) (res : RoundData) (elems : ElemData)
    (hr : env.results s.next_gameweek = some res)
    (he : env.elements s.next_gameweek = some elems) :
    (update env s roles wc log).2 = none ∧
    (update env s roles wc log).1.squad = newSquad roles := by
  rw [update_eq_of_data env s roles wc log res elems hr he]
  exact ⟨rfl, rfl⟩

/-- Witness for the amended C2: the 10-starter role assignment is
accepted and its (14-member) squad committed. -/
theorem update_no_role_validation_witness :
    (update envT s0 badRoles [] false).2 = none ∧
    (update envT s0 badRoles [] false).1.squad = newSquad badRoles :=
  update_no_role_validation envT s0 badRoles [] false rd0 ed0 rfl rfl

/-- C9: the `log` flag only controls printing; the resulting season
state of `update` is identical with `log=True` and `log=False`. -/
theorem update_log_independent (env : Env) (s : SimState) (roles : Roles)
    (wc : List Nat) :
    update env s roles wc true = update env s roles wc false := rfl

/-- C3: on an exempt round (wildcard or the season's first) `update`
leaves the free-transfer count at its pre-round value; otherwise the new
count is `clamp(free_transfers − transfers_made + 1, 0, 5)`; and
whenever the pre-round count is within `[0, 5]` the post-round count is
as well, so free transfers are never negative and never exceed 5. -/
theorem update_free_transfers_banking (env : Env) (s : SimState)
    (roles : Roles) (wc : List Nat) (log : Bool) (res : RoundData)
    (elems : ElemData)
    (hr : env.results s.next_gameweek = some res)
    (he : env.elements s.next_gameweek = some elems) :
    ((s.next_gameweek ∈ wc ∨ s.next_gameweek = 1) →
        (update env s roles wc log).1.free_transfers = s.free_transfers) ∧
    (¬(s.next_gameweek ∈ wc ∨ s.next_gameweek = 1) →
        (update env s roles wc log).1.free_transfers =
          min 5 (max 0 (s.free_transfers -
            (count_transfers s.squad (newSquad roles) : Int) + 1))) ∧
    (0 ≤ s.free_transfers → s.free_transfers ≤ 5 →
        0 ≤ (update env s roles wc log).1.free_transfers ∧
        (update env s roles wc log).1.free_transfers ≤ 5) := by
  rw [update_eq_of_data env s roles wc log res elems hr he]
  refine ⟨fun hx => ?_, fun hx => ?_, fun h0 h5 => ?_⟩
  · simp [update_free_transfers, transfer_exempt_iff, hx]
  · simp [update_free_transfers, transfer_exempt_iff, hx]
  · show 0 ≤ update_free_transfers _ _ _ _ ∧ update_free_transfers _ _ _ _ ≤ 5
    unfold update_free_transfers
    split
    · exact ⟨h0, h5⟩
    · omega

/-- Witness for C3: gameweek 2, no wildcard, 1 free transfer and 0
transfers made gives `clamp(1 − 0 + 1, 0, 5) = 2` free transfers. -/
theorem update_free_transfers_banking_witness :
    (update envT s0 roles0 [] false).1.free_transfers = 2 := by
  have h := (update_free_transfers_banking envT s0 roles0 [] false rd0 ed0
    rfl rfl).2.1 (by decide)
  rw [h]
  decide

/-- C4: the transfer cost charged by `update` (visible as the deduction
from the points tally) is `4 × max(0, transfers_made − free_transfers)`
when the round is neither a wildcard round nor the season's first round,
and 0 otherwise. -/
theorem update_transfer_cost_formula (env : Env) (s : SimState)
    (roles : Roles) (wc : List Nat) (log : Bool) (res : RoundData)
    (elems : ElemData)
    (hr : env.results s.next_gameweek = some res)
    (he : env.elements s.next_gameweek = some elems) :
    (update env s roles wc log).1.season_points =
      s.season_points +
        calculate_points
          (make_automatic_substitutions roles res.minutes elems.element_type)
          res.total_points -
        (if s.next_gameweek ∈ wc ∨ s.next_gameweek = 1 then 0
         else 4 * max 0 ((count_transfers s.squad (newSquad roles) : Int) -
           s.free_transfers)) := by
  rw [update_eq_of_data env s roles wc log res elems hr he]
  by_cases hx : s.next_gameweek ∈ wc ∨ s.next_gameweek = 1
  · simp [calculate_transfer_cost, transfer_exempt_iff, hx]
  · simp [calculate_transfer_cost, transfer_exempt_iff, hx]

/-- Witness for C4: 1 free transfer, 3 transfers made on a non-wildcard
round costs `4 × max(0, 3 − 1) = 8` points (all players scored 0, so the
tally drops from 0 to −8). -/
theorem update_transfer_cost_formula_witness :
    (update envT s0 roles3 [] false).1.season_points = -8 := by
  have h := update_transfer_cost_formula envT s0 roles3 [] false rd0 ed0
    rfl rfl
  rw [h]
  decide

/-- C5: for a valid role assignment — 11 distinct starters and 4
distinct reserves disjoint from them — the squad committed by `update`
(the union of starting XI and reserves) has exactly 15 members. -/
theorem update_squad_size_fifteen (env : Env) (s : SimState) (roles : Roles)
    (wc : List Nat) (log : Bool) (res : RoundData) (elems : ElemData)
    (hr : env.results s.next_gameweek = some res)
    (he : env.elements s.next_gameweek = some elems)
    (hlen : roles.starting_xi.length = 11)
    (hnd : roles.starting_xi.Nodup)
    (hrs : [roles.reserve_gkp, roles.reserve_out_1, roles.reserve_out_2,
      roles.reserve_out_3].Nodup)
    (hdisj : ∀ p ∈ [roles.reserve_gkp, roles.reserve_out_1,
      roles.reserve_out_2, roles.reserve_out_3], p ∉ roles.starting_xi) :
    (update env s roles wc log).1.squad.card = 15 := by
  rw [update_eq_of_data env s roles wc log res elems hr he]
  show (newSquad roles).card = 15
  have hsq : newSquad roles =
      (roles.starting_xi ++ [roles.reserve_gkp, roles.reserve_out_1,
        roles.reserve_out_2, roles.reserve_out_3]).toFinset := by
    simp [newSquad, List.toFinset_append]
  have happ : (roles.starting_xi ++ [roles.reserve_gkp, roles.reserve_out_1,
      roles.reserve_out_2, roles.reserve_out_3]).Nodup := by
    rw [List.nodup_append]
    exact ⟨hnd, hrs, fun a ha hb => hdisj a hb ha⟩
  rw [hsq, List.toFinset_card_of_nodup happ]
  simp [hlen]

/-- Witness for C5: the valid role assignment `roles0` commits a
15-member squad. -/
theorem update_squad_size_fifteen_witness :
    (update envT s0 roles0 [] false).1.squad.card = 15 :=
  update_squad_size_fifteen envT s0 roles0 [] false rd0 ed0 rfl rfl
    (by decide) (by decide) (by decide) (by decide)

/-- C6: `update` advances the gameweek pointer by exactly 1 and then
applies the cancelled-round skip: in season 2022-23 an incremented value
of 7 becomes 8 (so the pointer never equals 7, and across the run from
gameweek 1 the skip fires exactly once, at the sixth call); in every
other season the pointer increases by exactly 1 per call. -/
theorem update_gameweek_skip :
    (∀ (env : Env) (s : SimState) (roles : Roles) (wc : List Nat)
        (log : Bool) (res : RoundData) (elems : ElemData),
        env.results s.next_gameweek = some res →
        env.elements s.next_gameweek = some elems →
        (update env s roles wc log).1.next_gameweek =
          skipStep s.season s.next_gameweek) ∧
    (∀ ng, skipStep "2022-23" ng = if ng + 1 = 7 then 8 else ng + 1) ∧
    (∀ (season : String) (ng : Nat), season ≠ "2022-23" →
        skipStep season ng = ng + 1) ∧
    (∀ k, seqNg k ≠ 7) ∧
    (∀ k, seqNg (k + 1) = seqNg k + 2 ↔ k = 5) := by
  refine ⟨?_, skipStep_2223, skipStep_other, ?_, ?_⟩
  · intro env s roles wc log res elems hr he
    rw [update_eq_of_data env s roles wc log res elems hr he]
  · intro k
    rw [seqNg_formula]
    split <;> omega
  · intro k
    have h1 := seqNg_formula k
    have h2 := seqNg_formula (k + 1)
    constructor
    · intro h
      rw [h1, h2] at h
      split_ifs at h <;> omega
    · intro h
      subst h
      rw [h1, h2]
      norm_num

/-- Witness for C6: in season 2022-23 at gameweek 6, `update` moves the
pointer directly to 8. -/
theorem update_gameweek_skip_witness :
    (update envT s22 roles0 [] false).1.next_gameweek = 8 := by
  have h := update_gameweek_skip.1 envT s22 roles0 [] false rd0 ed0 rfl rfl
  rw [h]
  decide

/-- C7: for every player in the squad, the selling price equals the
current market price when the market price is at least the purchase
price, and otherwise equals the purchase price minus half the price drop
rounded down to the price tick, never exceeding the purchase price; in
particular purchase 50 with market 70 sells at 70 and purchase 50 with
market 30 sells at 40. -/
theorem selling_price_rule (squad : Finset Player) (pp : PriceMap)
    (now : Player → Int) (p : Player) (hp : p ∈ squad) :
    (pp.val p ≤ now p → (get_selling_prices squad pp now).val p = now p) ∧
    (now p < pp.val p →
        (get_selling_prices squad pp now).val p =
          pp.val p - (pp.val p - now p) / 2 ∧
        (get_selling_prices squad pp now).val p ≤ pp.val p) ∧
    selling_price 50 70 = 70 ∧ selling_price 50 30 = 40 := by
  refine ⟨fun hle => ?_, fun hlt => ⟨?_, ?_⟩, by decide, by decide⟩
  · simp [get_selling_prices, selling_price, hle]
  · simp [get_selling_prices, selling_price, not_le.mpr hlt]
  · show selling_price (pp.val p) (now p) ≤ pp.val p
    unfold selling_price
    split
    · omega
    · omega

/-- Witness for C7: a squad player bought at 50 whose market price
dropped to 30 sells at `50 − (50 − 30)/2 = 40 ≤ 50`. -/
theorem selling_price_rule_witness :
    (get_selling_prices squad0 pp0 (fun _ => (30 : Int))).val 1 =
      pp0.val 1 - (pp0.val 1 - 30) / 2 ∧
    (get_selling_prices squad0 pp0 (fun _ => (30 : Int))).val 1 ≤
      pp0.val 1 :=
  (selling_price_rule squad0 pp0 (fun _ => (30 : Int)) 1 (by decide)).2.1
    (by decide)

/-- C8: when the gameweek pointer exceeds 38 the season is complete and
its round data does not exist, so an `update` call in that state is
rejected (`DataUnavailable`) and performs no state transition. -/
theorem update_terminal_rejected (env : Env) (s : SimState) (roles : Roles)
    (wc : List Nat) (log : Bool)
    (hav : ∀ r, 38 < r → env.results r = none)
    (hng : 38 < s.next_gameweek) :
    update env s roles wc log = (s, some Err.dataUnavailable) := by
  have h := hav s.next_gameweek hng
  unfold update
  rw [h]

/-- Witness for C8: with data available exactly for rounds 1..38,
calling `update` at gameweek 39 is rejected with the state unchanged. -/
theorem update_terminal_rejected_witness :
    update envP s39 roles0 [] false = (s39, some Err.dataUnavailable) :=
  update_terminal_rejected envP s39 roles0 [] false
    (fun r hr => by
      show (if r ≤ 38 then some rd0 else none) = none
      rw [if_neg (by omega)])
    (by decide)

/-- C10: `update` performs no budget-feasibility check: whenever the
round's data is available it raises no error and unconditionally commits
the new squad together with the recomputed budget — the old budget plus
the departing players' selling prices minus the arriving players' market
prices — even when that budget is negative. -/
theorem update_budget_unchecked (env : Env) (s : SimState) (roles : Roles)
    (wc : List Nat) (log : Bool) (res : RoundData) (elems : ElemData)
    (hr : env.results s.next_gameweek = some res)
    (he : env.elements s.next_gameweek = some elems) :
    (update env s roles wc log).2 = none ∧
    (update env s roles wc log).1.budget =
      s.budget +
        (s.squad \ newSquad roles).sum
          (get_selling_prices s.squad s.purchase_prices elems.now_cost).val -
        (newSquad roles \ s.squad).sum elems.now_cost ∧
    (update env s roles wc log).1.squad = newSquad roles := by
  rw [update_eq_of_data env s roles wc log res elems hr he]
  exact ⟨rfl, rfl, rfl⟩

/-- Witness for C10: selling players 9, 10, 11 (150 in total) to buy
players 16, 17, 18 (3000 in total) drives the budget to −2850, and
`update` commits it without error. -/
theorem update_budget_unchecked_witness :
    (update envT s0 roles3 [] false).2 = none ∧
    (update envT s0 roles3 [] false).1.budget = -2850 ∧
    (update envT s0 roles3 [] false).1.budget < 0 := by
  have h := update_budget_unchecked envT s0 roles3 [] false rd0 ed0 rfl rfl
  refine ⟨h.1, ?_, ?_⟩
  · rw [h.2.1]
    decide
  · rw [h.2.1]
    decide

end FplSim
